import Mathlib

/-!
Verification of the formation-morph engine and interaction state machine of
the christmas-tree app (src/src/App.tsx, final iteration).

Scalars are modelled as rationals. Position buffers (`Float32Array` of
x,y,z triples in the source) are modelled as functions from the entity
index to a `Vec3`.
-/

namespace ChristmasTree

/-- A 3D position, one entity's slot in a position buffer. -/
structure Vec3 where
  x : ℚ
  y : ℚ
  z : ℚ
deriving DecidableEq, Repr

/-- `THREE.MathUtils.lerp(x, y, t) = (1 - t) * x + t * y`, as in the three.js
source, used both for the mix scalar and for each position component. -/
def lerp (x y t : ℚ) : ℚ := (1 - t) * x + t * y

/-- Componentwise `lerp` of two positions, as in the three per-component
assignments of the `useFrame` loop (App.tsx lines 110-112). -/
def lerpV (a b : Vec3) (t : ℚ) : Vec3 :=
  ⟨lerp a.x b.x t, lerp a.y b.y t, lerp a.z b.z t⟩

def Vec3.add (a b : Vec3) : Vec3 := ⟨a.x + b.x, a.y + b.y, a.z + b.z⟩

def Vec3.sub (a b : Vec3) : Vec3 := ⟨a.x - b.x, a.y - b.y, a.z - b.z⟩

def Vec3.smul (t : ℚ) (a : Vec3) : Vec3 := ⟨t * a.x, t * a.y, t * a.z⟩

/-- The mutable state touched by `TreeParticles`: the two construction-time
source buffers (`sourceData.tree`, `sourceData.dispersed`), the geometry
position attribute handed to the renderer (`currentPositions`), the blend
factor `mixRef.current`, and the pool rotation `rotation.y`. -/
structure PoolState where
  tree : ℕ → Vec3
  dispersed : ℕ → Vec3
  render : ℕ → Vec3
  mix : ℚ
  rotY : ℚ

/-- Pool construction: `sourceData` is generated once, and
`bufferPositions = Float32Array.from(sourceData.tree)` (App.tsx line 91)
copies the clustered source values into a fresh render buffer. -/
def initPool (tree dispersed : ℕ → Vec3) : PoolState :=
  { tree := tree, dispersed := dispersed, render := tree, mix := 0, rotY := 0 }

/-- The mix-scalar update of one tick (App.tsx lines 101-103):
`mixRef.current = THREE.MathUtils.lerp(mixRef.current, targetMix, delta * 3.0)`
with `targetMix = isDispersed ? 1 : 0`. -/
def updateMix (m : ℚ) (isDispersed : Bool) (dt : ℚ) : ℚ :=
  lerp m (if isDispersed then 1 else 0) (dt * 3)

/-- One `useFrame` tick of `TreeParticles` (App.tsx lines 96-117): update the
mix scalar, recompute every render slot from the two source buffers at the new
mix, and advance the pool rotation by `delta * (0.1 - mix * 0.08)`. -/
def tick (isDispersed : Bool) (dt : ℚ) (s : PoolState) : PoolState :=
  let newMix := updateMix s.mix isDispersed dt
  { s with
    mix := newMix
    render := fun i => lerpV (s.tree i) (s.dispersed i) newMix
    rotY := s.rotY + dt * (1 / 10 - newMix * (2 / 25)) }

/-- A finite run of ticks, each with its own formation-mode flag and frame
delta (the mode may toggle arbitrarily between ticks). -/
def runTicks (steps : List (Bool × ℚ)) (s : PoolState) : PoolState :=
  steps.foldl (fun st p => tick p.1 p.2 st) s

lemma lerp_zero (x y : ℚ) : lerp x y 0 = x := by
  simp [lerp]

lemma lerp_one (x y : ℚ) : lerp x y 1 = y := by
  simp [lerp]

lemma lerpV_zero (a b : Vec3) : lerpV a b 0 = a := by
  simp [lerpV, lerp_zero]

lemma lerpV_one (a b : Vec3) : lerpV a b 1 = b := by
  simp [lerpV, lerp_one]

/-- Invariant tying a pool state to its construction-time buffers: the source
buffers still hold their original values, and every render slot is the exact
interpolation of the sources at the current mix. -/
def RenderInv (A B : ℕ → Vec3) (s : PoolState) : Prop :=
  s.tree = A ∧ s.dispersed = B ∧ ∀ i, s.render i = lerpV (A i) (B i) s.mix

lemma renderInv_init (A B : ℕ → Vec3) : RenderInv A B (initPool A B) := by
  refine ⟨rfl, rfl, fun i => ?_⟩
  simp [initPool, lerpV_zero]

lemma renderInv_tick (A B : ℕ → Vec3) (d : Bool) (dt : ℚ) (s : PoolState)
    (h : RenderInv A B s) : RenderInv A B (tick d dt s) := by
  obtain ⟨hA, hB, _⟩ := h
  refine ⟨hA, hB, fun i => ?_⟩
  simp [tick, hA, hB]

lemma renderInv_run (A B : ℕ → Vec3) (steps : List (Bool × ℚ)) (s : PoolState)
    (h : RenderInv A B s) : RenderInv A B (runTicks steps s) := by
  induction steps generalizing s with
  | nil => exact h
  | cons p rest ih => exact ih _ (renderInv_tick A B p.1 p.2 s h)

/-- Concrete buffers used only by witnesses. -/
def sampleTree : ℕ → Vec3 := fun _ => ⟨1, 2, 3⟩

/-- Concrete buffers used only by witnesses. -/
def sampleDispersed : ℕ → Vec3 := fun _ => ⟨4, 5, 6⟩

/-- C1: No-drift / exact-return round trip: after any finite sequence of
formation-mode toggles and ticks from construction, whenever the mix scalar is
0 every render slot equals `formationA[i]` (the tree buffer) exactly, and
whenever it is 1 every render slot equals `formationB[i]` (the dispersed
buffer) exactly, because the recompute reads only the construction-time
source buffers. -/
theorem c1_no_drift_exact_return (A B : ℕ → Vec3) (steps : List (Bool × ℚ))
    (i : ℕ) :
    ((runTicks steps (initPool A B)).mix = 0 →
      (runTicks steps (initPool A B)).render i = A i) ∧
    ((runTicks steps (initPool A B)).mix = 1 →
      (runTicks steps (initPool A B)).render i = B i) := by
  have h := renderInv_run A B steps (initPool A B) (renderInv_init A B)
  obtain ⟨-, -, hr⟩ := h
  constructor
  · intro h0
    rw [hr i, h0, lerpV_zero]
  · intro h1
    rw [hr i, h1, lerpV_one]

/-- Witness for C1 at concrete buffers: the empty run has mix 0 and renders
the tree buffer; one tick with `isDispersed = true` and `dt = 1/3` drives the
mix to exactly 1 and renders the dispersed buffer. -/
theorem c1_no_drift_exact_return_witness :
    (runTicks [] (initPool sampleTree sampleDispersed)).render 0
        = sampleTree 0 ∧
    (runTicks [(true, 1 / 3)] (initPool sampleTree sampleDispersed)).render 0
        = sampleDispersed 0 :=
  ⟨(c1_no_drift_exact_return sampleTree sampleDispersed [] 0).1 rfl,
   (c1_no_drift_exact_return sampleTree sampleDispersed [(true, 1 / 3)] 0).2
     (by norm_num [runTicks, tick, updateMix, lerp, initPool])⟩

/-- C2: the per-tick recompute writes
`render[i] = formationA[i] + (formationB[i] - formationA[i]) * mix`
componentwise, sourced only from the two source buffers: the result is
independent of the previous render buffer contents. -/
theorem c2_exact_interpolation (d : Bool) (dt : ℚ) (s : PoolState) (i : ℕ) :
    ((tick d dt s).render i =
      Vec3.add (s.tree i)
        (Vec3.smul (tick d dt s).mix (Vec3.sub (s.dispersed i) (s.tree i)))) ∧
    (∀ r : ℕ → Vec3,
      (tick d dt { s with render := r }).render = (tick d dt s).render) := by
  constructor
  · simp only [tick, lerpV, lerp, Vec3.add, Vec3.sub, Vec3.smul, Vec3.mk.injEq]
    refine ⟨by ring, by ring, by ring⟩
  · intro r
    rfl

/-- C7: frame condition of the tick: the source buffers generated at pool
construction are never written by any run of ticks (each tick changes only
the render buffer, the mix scalar and the pool rotation), and the buffer
handed to the renderer starts as a value-copy of the tree source, so that
source stays intact however the render buffer is rewritten. -/
theorem c7_source_buffers_immutable (A B : ℕ → Vec3)
    (steps : List (Bool × ℚ)) (d : Bool) (dt : ℚ) (s : PoolState) :
    ((tick d dt s).tree = s.tree ∧ (tick d dt s).dispersed = s.dispersed) ∧
    ((runTicks steps (initPool A B)).tree = A ∧
      (runTicks steps (initPool A B)).dispersed = B) ∧
    (initPool A B).render = A := by
  have h := renderInv_run A B steps (initPool A B) (renderInv_init A B)
  exact ⟨⟨rfl, rfl⟩, ⟨h.1, h.2.1⟩, rfl⟩

/-- C3 counterexample: the claim quantifies over every positive frame delta,
but `lerp` does not clamp: at `dt = 1` (a one-second frame hitch) the update
from `mix = 0` toward target 1 yields `lerp 0 1 3 = 3`, which leaves `[0,1]`
and overshoots the target. -/
theorem c3_overshoot_counterexample :
    (0 : ℚ) < 1 ∧ updateMix 0 true 1 = 3 ∧ ¬ updateMix 0 true 1 ≤ 1 := by
  norm_num [updateMix, lerp]

/-- C3 amended: for every frame delta with `0 < dt` and `dt * 3 < 1`, the
update `mix := lerp(mix, targetMix, dt * 3)` strictly increases `mix` and
keeps it below 1 when the target is 1 and `mix ∈ [0,1)`, and symmetrically
strictly decreases it while keeping it above 0 when the target is 0 and
`mix ∈ (0,1]`; in particular `mix` stays in `[0,1]`. -/
theorem c3_mix_monotone_no_overshoot (m dt : ℚ) (hdt : 0 < dt)
    (hdt3 : dt * 3 < 1) :
    (0 ≤ m → m < 1 → m < updateMix m true dt ∧ updateMix m true dt < 1) ∧
    (0 < m → m ≤ 1 → 0 < updateMix m false dt ∧ updateMix m false dt < m) := by
  simp only [updateMix, lerp, if_pos, if_neg, Bool.true_eq_false,
    Bool.false_eq_true, reduceIte]
  constructor
  · intro hm0 hm1
    constructor
    · nlinarith [mul_pos hdt (sub_pos.mpr hm1)]
    · nlinarith [mul_pos (sub_pos.mpr hdt3) (sub_pos.mpr hm1)]
  · intro hm0 hm1
    constructor
    · nlinarith [mul_pos (sub_pos.mpr hdt3) hm0]
    · nlinarith [mul_pos hdt hm0]

/-- Witness for the amended C3 at `dt = 1/6`: one tick from `mix = 0` toward
target 1 lands strictly inside `(0, 1)`, and one tick from `mix = 1/2` toward
target 0 lands strictly inside `(0, 1/2)`. -/
theorem c3_mix_monotone_no_overshoot_witness :
    ((0 : ℚ) < updateMix 0 true (1 / 6) ∧ updateMix 0 true (1 / 6) < 1) ∧
    (0 < updateMix (1 / 2) false (1 / 6) ∧
      updateMix (1 / 2) false (1 / 6) < 1 / 2) :=
  ⟨(c3_mix_monotone_no_overshoot 0 (1 / 6) (by norm_num) (by norm_num)).1
      le_rfl (by norm_num),
   (c3_mix_monotone_no_overshoot (1 / 2) (1 / 6) (by norm_num) (by norm_num)).2
      (by norm_num) (by norm_num)⟩

/-! ## Ornament interaction state machine and app-level state -/

/-- The app-level state (App.tsx lines 283-284): `isDispersed` (false =
Clustered, true = Dispersed) and `activePhotoId` (the single shared active
ornament id, `number | null`). -/
structure AppState where
  isDispersed : Bool
  activePhotoId : Option ℕ
deriving DecidableEq, Repr

/-- Startup state (lines 283-284): Clustered, no active ornament. -/
def initApp : AppState := ⟨false, none⟩

/-- Photo click handler (line 241): `if (!isDispersed) return;
setActiveId(isActive ? null : index)` where `isActive = activeId === index`. -/
def selectPhoto (i : ℕ) (s : AppState) : AppState :=
  if !s.isDispersed then s
  else { s with
    activePhotoId := if s.activePhotoId = some i then none else some i }

/-- Overlay toggle button (line 310):
`setIsDispersed(p => !p); setActivePhotoId(null)`. -/
def toggleMode (s : AppState) : AppState :=
  { isDispersed := !s.isDispersed, activePhotoId := none }

/-- Tree click (lines 125 and 296): the `Points` onClick fires `onClickTree`
only when `!isDispersed`, and `onClickTree = () => setIsDispersed(true)` — it
does not touch `activePhotoId`. -/
def clickTree (s : AppState) : AppState :=
  if !s.isDispersed then { s with isDispersed := true } else s

/-- The user inputs that mutate app-level state. -/
inductive UiEvent where
  | photoClick (i : ℕ)
  | modeToggle
  | treeClick
deriving DecidableEq, Repr

def applyUiEvent (s : AppState) : UiEvent → AppState
  | .photoClick i => selectPhoto i s
  | .modeToggle => toggleMode s
  | .treeClick => clickTree s

def runUi (es : List UiEvent) (s : AppState) : AppState :=
  es.foldl applyUiEvent s

/-- Invariant: in Clustered mode no ornament is active. -/
def ClusteredInactive (s : AppState) : Prop :=
  s.isDispersed = false → s.activePhotoId = none

lemma clusteredInactive_step (s : AppState) (e : UiEvent)
    (h : ClusteredInactive s) : ClusteredInactive (applyUiEvent s e) := by
  obtain ⟨d, a⟩ := s
  cases e with
  | photoClick i =>
    cases d with
    | false => simpa [ClusteredInactive, applyUiEvent, selectPhoto] using h
    | true =>
      intro hc
      simp [applyUiEvent, selectPhoto] at hc
  | modeToggle =>
    intro _
    rfl
  | treeClick =>
    cases d with
    | false =>
      intro hc
      simp [applyUiEvent, clickTree] at hc
    | true => simp [ClusteredInactive, applyUiEvent, clickTree]
lemma clusteredInactive_run (es : List UiEvent) (s : AppState)
    (h : ClusteredInactive s) : ClusteredInactive (runUi es s) := by
  induction es generalizing s with
  | nil => exact h
  | cons e rest ih => exact ih _ (clusteredInactive_step s e h)

/-- C10: in every state reachable from startup via ornament clicks, the
toggle button and tree clicks, Clustered mode implies `activePhotoId = none`;
in particular a tree click (which transitions Clustered → Dispersed without
clearing the id) can never begin with a non-none active id. -/
theorem c10_clustered_implies_inactive (es : List UiEvent) :
    (runUi es initApp).isDispersed = false →
    (runUi es initApp).activePhotoId = none :=
  clusteredInactive_run es initApp (fun _ => rfl)

/-- Witness for C10 at the empty event sequence. -/
theorem c10_clustered_implies_inactive_witness :
    (runUi [] initApp).activePhotoId = none :=
  c10_clustered_implies_inactive [] rfl

/-- C6: from any reachable state, the toggle button leaves
`activePhotoId = none`, and a tree click that actually flips the formation
mode also ends with `activePhotoId = none` (it starts from Clustered, where
the reachable-state invariant already forces `none`). -/
theorem c6_mode_change_clears_active (es : List UiEvent) :
    (toggleMode (runUi es initApp)).activePhotoId = none ∧
    ((clickTree (runUi es initApp)).isDispersed ≠
        (runUi es initApp).isDispersed →
      (clickTree (runUi es initApp)).activePhotoId = none) := by
  refine ⟨rfl, fun hflip => ?_⟩
  by_cases hd : (runUi es initApp).isDispersed
  · simp [clickTree, hd] at hflip
  · have hnone := clusteredInactive_run es initApp (fun _ => rfl)
      (by simpa using hd)
    simp [clickTree, hd, hnone]

/-- Witness for C6 at the empty event sequence: the first tree click flips
Clustered to Dispersed and leaves no active ornament. -/
theorem c6_mode_change_clears_active_witness :
    (toggleMode (runUi [] initApp)).activePhotoId = none ∧
    (clickTree (runUi [] initApp)).activePhotoId = none :=
  ⟨(c6_mode_change_clears_active []).1,
   (c6_mode_change_clears_active []).2 (by decide)⟩

/-- C5: the selection contract of the photo click handler: a no-op in
Clustered mode; in Dispersed mode it preserves the mode, sets the active id
to `i` when it was `none` or a different index, and clears it to `none` when
it was already `i`. -/
theorem c5_selection_contract (i : ℕ) (s : AppState) :
    (s.isDispersed = false → selectPhoto i s = s) ∧
    (s.isDispersed = true →
      (selectPhoto i s).isDispersed = true ∧
      (s.activePhotoId = some i → (selectPhoto i s).activePhotoId = none) ∧
      (s.activePhotoId ≠ some i →
        (selectPhoto i s).activePhotoId = some i)) := by
  constructor
  · intro hd
    simp [selectPhoto, hd]
  · intro hd
    refine ⟨by simp [selectPhoto, hd], fun ha => by simp [selectPhoto, hd, ha],
      fun ha => by simp [selectPhoto, hd, ha]⟩

/-- Witness for C5: a Clustered click is a no-op; in Dispersed mode clicking
the active photo 1 clears the id and clicking photo 2 with no active photo
sets it. -/
theorem c5_selection_contract_witness :
    selectPhoto 1 ⟨false, some 3⟩ = ⟨false, some 3⟩ ∧
    (selectPhoto 1 ⟨true, some 1⟩).activePhotoId = none ∧
    (selectPhoto 2 ⟨true, none⟩).activePhotoId = some 2 :=
  ⟨(c5_selection_contract 1 ⟨false, some 3⟩).1 rfl,
   ((c5_selection_contract 1 ⟨true, some 1⟩).2 rfl).2.1 rfl,
   ((c5_selection_contract 2 ⟨true, none⟩).2 rfl).2.2 (by decide)⟩

/-- The three interaction states of an ornament. -/
inductive PhotoState where
  | Idle
  | Active
  | Suppressed
deriving DecidableEq, Repr

/-- The state of photo `i`, derived from the single shared active id
(App.tsx lines 185-186): `isActive = activeId === index` and
`isOtherActive = activeId !== null && activeId !== index`. -/
def photoState (activeId : Option ℕ) (i : ℕ) : PhotoState :=
  if activeId = some i then .Active
  else if activeId ≠ none ∧ activeId ≠ some i then .Suppressed
  else .Idle

/-- The destination scale of photo `i`'s frame update (lines 199-210):
`1.5 / 0.8` by mode when Idle, `4.5` when Active, `0` when Suppressed. -/
def destScale (isDispersed : Bool) (activeId : Option ℕ) (i : ℕ) : ℚ :=
  match photoState activeId i with
  | .Active => 9 / 2
  | .Suppressed => 0
  | .Idle => if isDispersed then 3 / 2 else 4 / 5

/-- C4: mutual exclusion of ornament states: at most one photo is Active;
while photo `i` is Active every other photo is Suppressed with destination
scale 0; and when no photo is active every photo is Idle — all derived from
the single shared `activePhotoId`. -/
theorem c4_mutual_exclusion (d : Bool) (a : Option ℕ) (i j : ℕ) :
    (photoState a i = .Active → photoState a j = .Active → i = j) ∧
    (photoState a i = .Active → j ≠ i →
      photoState a j = .Suppressed ∧ destScale d a j = 0) ∧
    (a = none → photoState a i = .Idle) := by
  cases a with
  | none =>
    refine ⟨fun hi => ?_, fun hi => ?_, fun _ => rfl⟩ <;>
      simp [photoState] at hi
  | some k =>
    refine ⟨fun hi hj => ?_, fun hi hji => ?_, fun hn => by simp at hn⟩
    · have hki : k = i := by
        by_contra hki
        simp [photoState, hki] at hi
      have hkj : k = j := by
        by_contra hkj
        simp [photoState, hkj] at hj
      omega
    · have hki : k = i := by
        by_contra hki
        simp [photoState, hki] at hi
      have hkj : ¬k = j := fun h => hji (by omega)
      have hs : photoState (some k) j = .Suppressed := by
        simp [photoState, hkj]
      exact ⟨hs, by simp [destScale, hs]⟩

/-- Witness for C4: with photo 1 active, photo 0 is Suppressed with
destination scale 0; with no active photo, photo 5 is Idle. -/
theorem c4_mutual_exclusion_witness :
    (photoState (some 1) 0 = .Suppressed ∧ destScale true (some 1) 0 = 0) ∧
    photoState none 5 = .Idle :=
  ⟨(c4_mutual_exclusion true (some 1) 1 0).2.1 (by decide) (by decide),
   (c4_mutual_exclusion true none 5 0).2.2 rfl⟩

/-- The OrbitControls gate (App.tsx line 304): `enabled={!activePhotoId}` and
`autoRotate={!activePhotoId}`. JavaScript `!` on a `number | null` value is
true for `null` and for `0`, and false for every non-zero id, so this models
`!activePhotoId` exactly. -/
def orbitControlsEnabled (activePhotoId : Option ℕ) : Bool :=
  match activePhotoId with
  | none => true
  | some n => n == 0

/-- C8: the camera gate is unlocked when no photo is active and locked for a
non-zero active id, but for active id 0 the truthiness test `!activePhotoId`
leaves the controls enabled and auto-rotating — contradicting the required
lock for every `activeOrnamentId ≠ none`, index 0 included. -/
theorem c8_camera_gate_truthiness_bug :
    orbitControlsEnabled none = true ∧
    orbitControlsEnabled (some 1) = false ∧
    ((some 0 : Option ℕ) ≠ none ∧ orbitControlsEnabled (some 0) = true) := by
  decide

/-! ## Dispersed-formation sampling -/

/-- The dispersed branch of `calculateTargetPosition` (App.tsx lines 43-52),
with the random draws and trigonometric values as parameters: `v, u ∈ [0,1)`
are the `Math.random()` draws for radius and phi, `sinTheta`/`cosTheta` are
the sine and cosine of the uniform angle `theta`, and `sinPhi` stands for
`sin(acos(2u - 1))`, so `cos phi = 2u - 1` and `sinPhi ≥ 0` with
`sinPhi² = 1 - (2u - 1)²`. The radius is `r = 15 + v * 25`. -/
def dispersedSample (v u sinTheta cosTheta sinPhi : ℚ) : Vec3 :=
  ⟨(15 + v * 25) * sinPhi * cosTheta,
   (15 + v * 25) * sinPhi * sinTheta,
   (15 + v * 25) * (2 * u - 1)⟩

/-- Squared distance from the origin. -/
def normSq (p : Vec3) : ℚ := p.x ^ 2 + p.y ^ 2 + p.z ^ 2

/-- C9: every dispersed sample has squared distance from the origin equal to
`r²` for the independently drawn radius `r = 15 + v * 25`, and `r` lies in
`[15, 40)` and is never negative. -/
theorem c9_dispersed_radius_range (v u sinTheta cosTheta sinPhi : ℚ)
    (hv0 : 0 ≤ v) (hv1 : v < 1)
    (hTheta : sinTheta ^ 2 + cosTheta ^ 2 = 1)
    (hPhi : sinPhi ^ 2 = 1 - (2 * u - 1) ^ 2) :
    normSq (dispersedSample v u sinTheta cosTheta sinPhi) =
      (15 + v * 25) ^ 2 ∧
    0 ≤ 15 + v * 25 ∧ 15 ≤ 15 + v * 25 ∧ 15 + v * 25 < 40 := by
  refine ⟨?_, by linarith, by linarith, by linarith⟩
  simp only [normSq, dispersedSample]
  linear_combination (15 + v * 25) ^ 2 * sinPhi ^ 2 * hTheta +
    (15 + v * 25) ^ 2 * hPhi

/-- Witness for C9 at `v = 0`, `u = 1/2` (equator), `theta = 0`: the sample
sits at squared distance `15²` and the radius bounds hold. -/
theorem c9_dispersed_radius_range_witness :
    normSq (dispersedSample 0 (1 / 2) 0 1 1) = (15 + 0 * 25) ^ 2 ∧
    (0 : ℚ) ≤ 15 + 0 * 25 ∧ (15 : ℚ) ≤ 15 + 0 * 25 ∧
    (15 : ℚ) + 0 * 25 < 40 :=
  c9_dispersed_radius_range 0 (1 / 2) 0 1 1 (by norm_num) (by norm_num)
    (by norm_num) (by norm_num)

end ChristmasTree
